import Mathlib

/-!
Verification development for the frappe_mcp_server access layer.

This file gives a shallow embedding, in Lean 4, of the parts of the
TypeScript source relevant to the frozen claims: the post-create
verification cascade (`verifyDocumentCreation`), the create-with-retry
loop (`createDocumentWithRetry`), the `order_by` splitting in
`listDocuments` / `listDocumentsWithAuth`, the two schema-fetch paths of
`getDocTypeSchema`, the password-authentication state machine
(`authenticateWithPassword`), the validation/translation structure of the
CRUD operations, and `getFieldOptions`.

JavaScript values that the code inspects dynamically are modelled by the
small inductive `JVal` (string / number / boolean / null / undefined),
with association lists standing for plain objects.  Remote calls are
modelled by passing their outcome in as an explicit `Except` argument:
`Except.error` stands for a rejected promise (a thrown exception),
`Except.ok` for a resolved one.  `Option` inside the payload models
null/undefined results.  Timestamps are integers (milliseconds).
-/

namespace FrappeMcp

/-- A dynamically-typed JavaScript value, as far as the embedded code
inspects one: strings, numbers, booleans, `null` and `undefined`.
Objects and arrays are represented at the meta level by association
lists and `List`. -/
inductive JVal where
  | str (s : String)
  | num (n : Int)
  | bool (b : Bool)
  | null
  | undefined
deriving DecidableEq, Repr

/-- JavaScript truthiness for the values `JVal` can hold:
non-empty strings, non-zero numbers and `true` are truthy. -/
def JVal.truthy : JVal → Bool
  | .str s => s ≠ ""
  | .num n => n ≠ 0
  | .bool b => b
  | .null => false
  | .undefined => false

/-- JavaScript strict equality `v === 1` (true only on the number 1). -/
def JVal.isOne : JVal → Bool
  | .num n => n == 1
  | _ => false

/-- JavaScript strict equality `v === s` against a string literal. -/
def JVal.isStr : JVal → String → Bool
  | .str t, s => t == s
  | _, _ => false

/-- JavaScript string coercion (template-literal interpolation) for the
values `JVal` can hold. -/
def JVal.toStr : JVal → String
  | .str s => s
  | .num n => toString n
  | .bool b => if b then "true" else "false"
  | .null => "null"
  | .undefined => "undefined"

/-- The JavaScript `a || b` idiom on dynamic values. -/
def JVal.orElse (a b : JVal) : JVal :=
  if a.truthy then a else b

/-- A plain JavaScript object, as an association list of keyed values
(first binding wins on lookup, as in an object literal read). -/
abbrev JObj := List (String × JVal)

/-- Property access `o.k`: the bound value, or `undefined` when the key
is absent. -/
def jGet (o : JObj) (k : String) : JVal :=
  match o.find? (fun p => p.1 == k) with
  | some p => p.2
  | none => .undefined

/-- JavaScript truthiness of an optional string (used for
`process.env` variables and record fields typed as strings):
absent and empty strings are falsy. -/
def strTruthy : Option String → Bool
  | some s => s ≠ ""
  | none => false

/-!
### JavaScript string primitives

`String.split`, `String.trim`, `String.endsWith` and
`String.substring(0, n)` are modelled by structurally recursive
functions on the character list, so that concrete runs compute. -/

/-- Splitting helper for `jsSplit`: accumulates the current segment in
reverse. -/
def splitChars (sep : Char) : List Char → List Char → List (List Char)
  | [], acc => [acc.reverse]
  | c :: rest, acc =>
      if c = sep then acc.reverse :: splitChars sep rest []
      else splitChars sep rest (c :: acc)

/-- JavaScript `s.split(sep)` for a one-character separator: every
separator occurrence starts a new segment, and the empty string splits
to `[""]`. -/
def jsSplit (sep : Char) (s : String) : List String :=
  (splitChars sep s.data []).map String.mk

/-- JavaScript `s.trim()`: strip leading and trailing whitespace. -/
def jsTrim (s : String) : String :=
  String.mk (((s.data.dropWhile Char.isWhitespace).reverse.dropWhile Char.isWhitespace).reverse)

/-- JavaScript `s.endsWith(suffix)`. -/
def jsEndsWith (s suffix : String) : Bool :=
  suffix.data.isSuffixOf s.data

/-- JavaScript `s.substring(0, n)`: the first `n` characters. -/
def jsSubstringTo (s : String) (n : Nat) : String :=
  String.mk (s.data.take n)

/-!
## Errors and the error translator

`FrappeApiError` (src: `class FrappeApiError` and
`FrappeApiError.fromAxiosError`) together with `handleApiError`
(src: `function handleApiError`).  A raised JavaScript error is either a
plain `Error`, an axios transport error, or an already-constructed
`FrappeApiError`.
-/

/-- Outcome of the `JSON.parse` attempt on `_server_messages` (the
parser itself is supplied by the JavaScript runtime, so its outcome is
data here): either a parsed list of message strings (after the
`m.message || m` extraction) or the raw string when parsing failed. -/
inductive ServerMessages where
  | parsed (msgs : List String)
  | raw (s : String)
deriving DecidableEq, Repr

/-- The parts of an axios error's `response.data` that
`FrappeApiError.fromAxiosError` inspects. -/
structure AxiosErrorData where
  exception : Option String
  serverMessages : Option ServerMessages
  message : Option String
deriving DecidableEq, Repr

/-- The parts of an `AxiosError` that `FrappeApiError.fromAxiosError`
inspects: `error.message`, `error.response?.status`,
`error.config?.url` and `error.response?.data`. -/
structure AxiosError where
  message : String
  status : Option Nat
  url : Option String
  data : Option AxiosErrorData
deriving DecidableEq, Repr

/-- A raised JavaScript error, as the embedded code distinguishes them:
a plain `new Error(msg)`, an axios transport error, or a structured
`FrappeApiError` (message, optional status code, optional endpoint). -/
inductive JsError where
  | plain (msg : String)
  | axios (e : AxiosError)
  | api (message : String) (statusCode : Option Nat) (endpoint : Option String)
deriving DecidableEq, Repr

/-- The `.message` property of a raised error. -/
def JsError.message : JsError → String
  | .plain m => m
  | .axios e => e.message
  | .api m _ _ => m

/-- Whether an error is a structured `FrappeApiError`. -/
def JsError.isApi : JsError → Bool
  | .api _ _ _ => true
  | _ => false

/-- `FrappeApiError.fromAxiosError`: extract status and endpoint and
choose the most informative message, trying in order the upstream
`exception` string, `_server_messages` (parsed when possible, raw
otherwise), a generic `message` field, and the transport message. -/
def FrappeApiError.fromAxiosError (e : AxiosError) (operation : String) : JsError :=
  let statusCode := e.status
  let endpoint := some (e.url.getD "unknown")
  match e.data with
  | none =>
      .api ("Frappe API error during " ++ operation ++ ": " ++ e.message) statusCode endpoint
  | some d =>
      match d.exception with
      | some exc =>
          .api ("Frappe exception during " ++ operation ++ ": " ++ exc) statusCode endpoint
      | none =>
          match d.serverMessages with
          | some (.parsed msgs) =>
              .api ("Frappe server message during " ++ operation ++ ": " ++
                    String.intercalate "; " msgs) statusCode endpoint
          | some (.raw s) =>
              .api ("Frappe server message during " ++ operation ++ ": " ++ s)
                statusCode endpoint
          | none =>
              match d.message with
              | some m =>
                  .api ("Frappe API error during " ++ operation ++ ": " ++ m)
                    statusCode endpoint
              | none =>
                  .api ("Frappe API error during " ++ operation ++ ": " ++ e.message)
                    statusCode endpoint

/-- `handleApiError`: axios errors go through
`FrappeApiError.fromAxiosError`; every other error is wrapped into
`new FrappeApiError("Error during <op>: <msg>")` with no status code or
endpoint. -/
def handleApiError (error : JsError) (operation : String) : JsError :=
  match error with
  | .axios e => FrappeApiError.fromAxiosError e operation
  | e => .api ("Error during " ++ operation ++ ": " ++ e.message) none none

/-!
## The verification engine (`verifyDocumentCreation`)
-/

/-- A document as the verification engine inspects one: its `name`
property (absent, or a string). -/
structure Doc where
  name : Option String
deriving DecidableEq, Repr

/-- The creation response, of which only `.name` is inspected. -/
structure CreationResponse where
  name : Option String
deriving DecidableEq, Repr

/-- The fields of the `values` record that the verification engine
reads (`values.name`, `values.title`, `values.description`); any other
entries are irrelevant to it and kept opaque. -/
structure CreateValues where
  name : Option String
  title : Option String
  description : Option String
  others : JObj
deriving DecidableEq, Repr

/-- The JavaScript emptiness test
`!values || Object.keys(values).length === 0`. -/
def CreateValues.isEmpty (v : CreateValues) : Bool :=
  v.name.isNone && v.title.isNone && v.description.isNone && v.others.isEmpty

/-- `{success, message}` report value. -/
structure VerificationResult where
  success : Bool
  message : String
deriving DecidableEq, Repr

/-- The single-entry filter record the cascade builds:
field name, operator and value. -/
abbrev VerifyFilter := String × String × String

/-- Filter construction of the cascade (src lines building `filters`):
exact `name` when truthy, else exact `title`, else a `like` match on the
first 20 characters of `description`; `none` when no discriminating
field is available. -/
def buildVerifyFilters (values : CreateValues) : Option VerifyFilter :=
  if strTruthy values.name then
    some ("name", "=", values.name.getD "")
  else if strTruthy values.title then
    some ("title", "=", values.title.getD "")
  else if strTruthy values.description then
    some ("description", "like", "%" ++ jsSubstringTo (values.description.getD "") 20 ++ "%")
  else
    none

/-- A `getDocList` channel call, as issued by the embedded code:
target doctype, `limit`, `fields` and `filters` arguments. -/
structure DocListQuery where
  doctype : String
  limit : Option Nat
  fields : Option (List String)
  filters : Option VerifyFilter
deriving DecidableEq, Repr

/-- The step-2 test `document && document.name === creationResponse.name`
on the outcome of the direct fetch; the fetch sits in its own inner
`try/catch` whose handler only logs, so a thrown fetch behaves like a
non-matching one and the cascade falls through to the filter search. -/
def directFetchHit (n : String) (getDocR : Except JsError (Option Doc)) : Bool :=
  match getDocR with
  | .ok (some d) => d.name == some n
  | _ => false

/-- `verifyDocumentCreation doctype values creationResponse`, with the
two remote calls it makes passed in as outcomes: `getDocR` is the direct
`frappe.db().getDoc(doctype, name)` fetch and `getListR` the filtered
`frappe.db().getDocList(doctype, {filters, limit: 5})` query.  The
returned `Except` models the promise the function returns; the outer
`try/catch` of the source is the final `match`, which converts any
uncaught exception into an `Error during verification` report. -/
def verifyDocumentCreation (values : CreateValues) (resp : CreationResponse)
    (getDocR : Except JsError (Option Doc))
    (getListR : Except JsError (Option (List Doc))) :
    Except JsError VerificationResult :=
  let body : Except JsError VerificationResult :=
    if !strTruthy resp.name then
      .ok ⟨false, "Response does not contain a document name"⟩
    else
      let n := resp.name.getD ""
      if directFetchHit n getDocR then
        .ok ⟨true, "Document verified by direct fetch"⟩
      else
        match buildVerifyFilters values with
        | some _ =>
            match getListR with
            | .error e => .error e
            | .ok docsOpt =>
                match docsOpt with
                | some docs =>
                    if docs.length > 0 then
                      if docs.any (fun d => d.name == some n) then
                        .ok ⟨true, "Document verified by filter search"⟩
                      else
                        .ok ⟨false, "Found " ++ toString docs.length ++
                          " documents matching filters, but none match the expected name " ++ n⟩
                    else
                      .ok ⟨false, "No documents found matching the creation filters"⟩
                | none =>
                    .ok ⟨false, "No documents found matching the creation filters"⟩
        | none =>
            .ok ⟨false, "Could not verify document creation - no suitable filters available"⟩
  match body with
  | .error e => .ok ⟨false, "Error during verification: " ++ e.message⟩
  | .ok r => .ok r

/-- The filtered `getDocList` call that `verifyDocumentCreation` issues
when it reaches the filter-search step: filters as built from `values`,
`limit: 5`, no field projection. -/
def verifyListQuery (doctype : String) (values : CreateValues) : Option DocListQuery :=
  match buildVerifyFilters values with
  | some f => some ⟨doctype, some 5, none, some f⟩
  | none => none

/-!
## Create with retry (`createDocumentWithRetry`)

The loop body of one attempt either throws (the `createDoc` call
rejects) or yields a creation response together with the verification
report computed for it; `verifyDocumentCreation` itself never throws, so
these are the only shapes an attempt can take.
-/

/-- A create response, kept opaque (the retry loop only spreads it into
the returned object). -/
abbrev CreateResp := JObj

/-- What one iteration of the retry loop observes. -/
inductive AttemptOutcome where
  | throws (e : String)
  | created (r : CreateResp) (v : VerificationResult)
deriving DecidableEq, Repr

/-- Whether an attempt outcome is a failure for the retry loop (either
an exception or an unverified creation). -/
def AttemptOutcome.failed : AttemptOutcome → Bool
  | .throws _ => true
  | .created _ v => !v.success

/-- The error the loop records for a failed attempt: a thrown error is
kept as-is, an unverified creation becomes
`Verification failed: <message>`. -/
def AttemptOutcome.recordedError : AttemptOutcome → Option String
  | .throws e => some e
  | .created _ v => if v.success then none else some ("Verification failed: " ++ v.message)

/-- The value returned on a verified attempt:
`{ ...result, _verification: verificationResult }`. -/
structure RetryOk where
  response : CreateResp
  verification : VerificationResult
deriving DecidableEq, Repr

instance {ε α : Type} [DecidableEq ε] [DecidableEq α] : DecidableEq (Except ε α) := fun a b =>
  match a, b with
  | .ok x, .ok y =>
      if h : x = y then .isTrue (by rw [h]) else .isFalse (by intro hc; cases hc; exact h rfl)
  | .error x, .error y =>
      if h : x = y then .isTrue (by rw [h]) else .isFalse (by intro hc; cases hc; exact h rfl)
  | .ok _, .error _ => .isFalse (by intro hc; cases hc)
  | .error _, .ok _ => .isFalse (by intro hc; cases hc)

/-- Observable trace of one `createDocumentWithRetry` run: the settled
promise (value or thrown last error), the number of create attempts
issued, and the backoff delays awaited, in milliseconds and in order. -/
structure RetryTrace where
  result : Except String RetryOk
  attempts : Nat
  delays : List Nat
deriving DecidableEq, Repr

/-- The `for (attempt = 1; attempt <= maxRetries; attempt++)` loop of
`createDocumentWithRetry`.  On a verified attempt it returns the spread
result; on an unverified attempt it records
`Verification failed: <message>` as the last error, waits
`Math.pow(2, attempt - 1) * 1000` ms and continues; on a thrown attempt
it records the thrown error, waits the same delay and continues.  Past
`maxRetries` it throws the last recorded error (or the
`Failed to create document after <n> attempts` fallback). -/
def createDocumentWithRetryGo (outcomes : Nat → AttemptOutcome) (maxRetries : Nat) :
    Nat → Nat → Option String → List Nat → RetryTrace
  | 0, attempt, lastError, delays =>
      ⟨.error (lastError.getD ("Failed to create document after " ++
          toString maxRetries ++ " attempts")), attempt - 1, delays⟩
  | fuel + 1, attempt, lastError, delays =>
      if attempt ≤ maxRetries then
        match outcomes attempt with
        | .created r v =>
            if v.success then
              ⟨.ok ⟨r, v⟩, attempt, delays⟩
            else
              createDocumentWithRetryGo outcomes maxRetries fuel (attempt + 1)
                (some ("Verification failed: " ++ v.message))
                (delays ++ [2 ^ (attempt - 1) * 1000])
        | .throws e =>
            createDocumentWithRetryGo outcomes maxRetries fuel (attempt + 1)
              (some e)
              (delays ++ [2 ^ (attempt - 1) * 1000])
      else
        ⟨.error (lastError.getD ("Failed to create document after " ++
            toString maxRetries ++ " attempts")), attempt - 1, delays⟩

/-- `createDocumentWithRetry(doctype, values, maxRetries = 3)`:
the loop starts at attempt 1 with no recorded error and no delays
awaited.  The loop runs at most `maxRetries` iterations before its
condition fails, so a fuel of `maxRetries + 1` is enough to reach the
exit either way; the fuel-exhausted branch of the helper repeats the
loop-exit result and is unreachable from this entry point. -/
def createDocumentWithRetry (outcomes : Nat → AttemptOutcome)
    (maxRetries : Nat) : RetryTrace :=
  createDocumentWithRetryGo outcomes maxRetries (maxRetries + 1) 1 none []

/-!
## `order_by` handling in `listDocuments` / `listDocumentsWithAuth`
-/

/-- The `orderBy` splitting at the head of `listDocuments`:
a trailing ` desc` sets the direction to `desc` and replaces `order_by`
by `order_by.split(" ")[0]`; else a trailing ` asc` does the same with
direction `asc`; otherwise the direction stays at its `"asc"` default
and `order_by` is unchanged. -/
def splitOrderBy (order_by : Option String) : Option String × String :=
  match order_by with
  | none => (none, "asc")
  | some ob =>
      if jsEndsWith ob " desc" then
        (some ((jsSplit ' ' ob).headD ""), "desc")
      else if jsEndsWith ob " asc" then
        (some ((jsSplit ' ' ob).headD ""), "asc")
      else
        (some ob, "asc")

/-- The argument object `listDocuments` hands to
`frappe.db().getDocList(doctype, ...)`.  Filters are forwarded opaquely
as the raw record. -/
structure GetDocListArgs where
  fields : Option (List String)
  filters : Option JObj
  orderBy : Option (String × String)
  limit_start : Option Nat
  limit : Option Nat
deriving DecidableEq, Repr

/-- The channel call built by `listDocuments` (token channel): after the
`order_by` splitting, `orderBy` is `{field: order_by, order: order_dir}`
when the (possibly reassigned) `order_by` is truthy and `undefined`
otherwise; the remaining arguments are forwarded unchanged. -/
def listDocumentsChannelCall (filters : Option JObj) (fields : Option (List String))
    (limit : Option Nat) (order_by : Option String) (limit_start : Option Nat) :
    GetDocListArgs :=
  let od := splitOrderBy order_by
  { fields := fields
    filters := filters
    orderBy :=
      match od.1 with
      | some f => if f ≠ "" then some (f, od.2) else none
      | none => none
    limit_start := limit_start
    limit := limit }

/-- The channel call built by `listDocumentsWithAuth` (password
channel); the construction is textually identical to the token
variant's. -/
def listDocumentsWithAuthChannelCall (filters : Option JObj) (fields : Option (List String))
    (limit : Option Nat) (order_by : Option String) (limit_start : Option Nat) :
    GetDocListArgs :=
  let od := splitOrderBy order_by
  { fields := fields
    filters := filters
    orderBy :=
      match od.1 with
      | some f => if f ≠ "" then some (f, od.2) else none
      | none => none
    limit_start := limit_start
    limit := limit }

/-!
## Password-authentication state machine (`authenticateWithPassword`)
-/

/-- `AUTH_TIMEOUT = 1000 * 60 * 30` (30 minutes, in milliseconds). -/
def AUTH_TIMEOUT : Int := 1000 * 60 * 30

/-- The module-level authentication state: `isAuthenticated` and
`lastAuthAttempt` (the `authenticationInProgress` flag is a concurrency
guard and is not part of this sequential model). -/
structure AuthState where
  isAuthenticated : Bool
  lastAuthAttempt : Int
deriving DecidableEq, Repr

/-- Initial state at process start. -/
def AuthState.init : AuthState := ⟨false, 0⟩

/-- The environment-sourced credentials
(`process.env.FRAPPE_USERNAME`, `process.env.FRAPPE_PASSWORD`). -/
structure AuthConfig where
  username : Option String
  password : Option String
deriving DecidableEq, Repr

/-- Whether both credentials are configured and non-empty
(the `!process.env.FRAPPE_USERNAME || !process.env.FRAPPE_PASSWORD`
test, negated). -/
def AuthConfig.credsPresent (cfg : AuthConfig) : Bool :=
  strTruthy cfg.username && strTruthy cfg.password

/-- Upstream outcome of `frappePassword.auth().loginWithUsernamePassword`. -/
inductive LoginOutcome where
  | ok
  | err (e : String)
deriving DecidableEq, Repr

/-- Result of one `authenticateWithPassword()` call: the returned
boolean, the state it leaves behind, and whether a login call reached
upstream. -/
structure AuthRun where
  returned : Bool
  state : AuthState
  loginCalled : Bool
deriving DecidableEq, Repr

/-- `authenticateWithPassword()` on the fast path and the login path:
if `isAuthenticated && (now - lastAuthAttempt < AUTH_TIMEOUT)` it
returns `true` at once; else with missing credentials it sets
`isAuthenticated = false` and returns `false` with no upstream call;
else it performs the login, on success setting `isAuthenticated = true`
and `lastAuthAttempt = now` and returning `true`, on rejection setting
`isAuthenticated = false` and returning `false` (the timestamp is left
untouched). -/
def authenticateWithPassword (cfg : AuthConfig) (st : AuthState) (now : Int)
    (login : LoginOutcome) : AuthRun :=
  if st.isAuthenticated && decide (now - st.lastAuthAttempt < AUTH_TIMEOUT) then
    ⟨true, st, false⟩
  else if !cfg.credsPresent then
    ⟨false, { st with isAuthenticated := false }, false⟩
  else
    match login with
    | .ok => ⟨true, { isAuthenticated := true, lastAuthAttempt := now }, true⟩
    | .err _ => ⟨false, { st with isAuthenticated := false }, true⟩

/-!
## Document operations (validation and error routing)

Each operation's body sits entirely inside a `try { ... } catch (error)
{ return handleApiError(error, op) }` block, including the argument
validation at its head; `networkAccessed` records whether the remote
call was reached.
-/

/-- Result of one operation call: the settled promise and whether the
remote channel was contacted. -/
structure OpResult (α : Type) where
  result : Except JsError α
  networkAccessed : Bool
deriving Repr

/-- `getDocument(doctype, name, fields?)` with the outcome of
`frappe.db().getDoc(doctype, name)` passed in: empty arguments throw
inside the `try` block before the fetch, a falsy response throws
`Invalid response format`, and every thrown error — the validation ones
included — is routed through `handleApiError`. -/
def getDocument {α : Type} (doctype name : String)
    (fetchR : Except JsError (Option α)) : OpResult α :=
  let op := "get_document(" ++ doctype ++ ", " ++ name ++ ")"
  if doctype = "" then
    ⟨.error (handleApiError (.plain "DocType is required") op), false⟩
  else if name = "" then
    ⟨.error (handleApiError (.plain "Document name is required") op), false⟩
  else
    match fetchR with
    | .error e => ⟨.error (handleApiError e op), true⟩
    | .ok none =>
        ⟨.error (handleApiError
          (.plain ("Invalid response format for document " ++ doctype ++ "/" ++ name)) op), true⟩
    | .ok (some d) => ⟨.ok d, true⟩

/-- The value `createDocument` resolves with: the creation response,
annotated with the verification report when verification did not
succeed (`{ ...response, _verification }`), and unannotated otherwise. -/
structure CreatedWithVerification where
  response : CreationResponse
  verification : Option VerificationResult
deriving DecidableEq, Repr

/-- `createDocument(doctype, values)` with the outcomes of
`frappe.db().createDoc` and of the two remote calls the unconditional
verification step makes: validation throws inside the `try` block, a
falsy response throws, and an unverified result is returned annotated
with `_verification` rather than raised. -/
def createDocument (doctype : String) (values : CreateValues)
    (createR : Except JsError (Option CreationResponse))
    (getDocR : Except JsError (Option Doc))
    (getListR : Except JsError (Option (List Doc))) :
    OpResult CreatedWithVerification :=
  let op := "create_document(" ++ doctype ++ ")"
  if doctype = "" then
    ⟨.error (handleApiError (.plain "DocType is required") op), false⟩
  else if values.isEmpty then
    ⟨.error (handleApiError (.plain "Document values are required") op), false⟩
  else
    match createR with
    | .error e => ⟨.error (handleApiError e op), true⟩
    | .ok none =>
        ⟨.error (handleApiError (.plain ("Invalid response format for creating " ++ doctype)) op),
          true⟩
    | .ok (some resp) =>
        match verifyDocumentCreation values resp getDocR getListR with
        | .ok vr =>
            if vr.success then ⟨.ok ⟨resp, none⟩, true⟩ else ⟨.ok ⟨resp, some vr⟩, true⟩
        | .error e => ⟨.error (handleApiError e op), true⟩

/-- `updateDocument(doctype, name, values)` with the outcome of
`frappe.db().updateDoc` passed in. -/
def updateDocument (doctype name : String) (values : CreateValues)
    (updateR : Except JsError (Option JObj)) : OpResult JObj :=
  let op := "update_document(" ++ doctype ++ ", " ++ name ++ ")"
  if doctype = "" then
    ⟨.error (handleApiError (.plain "DocType is required") op), false⟩
  else if name = "" then
    ⟨.error (handleApiError (.plain "Document name is required") op), false⟩
  else if values.isEmpty then
    ⟨.error (handleApiError (.plain "Update values are required") op), false⟩
  else
    match updateR with
    | .error e => ⟨.error (handleApiError e op), true⟩
    | .ok none =>
        ⟨.error (handleApiError
          (.plain ("Invalid response format for updating " ++ doctype ++ "/" ++ name)) op), true⟩
    | .ok (some d) => ⟨.ok d, true⟩

/-- `deleteDocument(doctype, name)` with the outcome of
`frappe.db().deleteDoc` passed in; the (possibly falsy) acknowledgement
is returned unmodified. -/
def deleteDocument (doctype name : String)
    (deleteR : Except JsError (Option JObj)) : OpResult (Option JObj) :=
  let op := "delete_document(" ++ doctype ++ ", " ++ name ++ ")"
  if doctype = "" then
    ⟨.error (handleApiError (.plain "DocType is required") op), false⟩
  else if name = "" then
    ⟨.error (handleApiError (.plain "Document name is required") op), false⟩
  else
    match deleteR with
    | .error e => ⟨.error (handleApiError e op), true⟩
    | .ok r => ⟨.ok r, true⟩

/-!
## Schema operations (`getDocTypeSchema`)

The metadata endpoint (`frappe.call().get('frappe.get_meta', ...)`)
returns a bundle of the doctype record, its fields, permissions and
workflow; the fallback path fetches the `DocType` document itself via
`getDocument`.  Raw upstream field records are `JObj` association
lists.
-/

/-- A raw upstream field or permission record. -/
abbrev RField := JObj

/-- The parts of the metadata-endpoint response that
`getDocTypeSchema` reads: `docTypeData.doctype`, `.fields`,
`.permissions` and `.workflow`. -/
structure MetaBundle where
  doctype : Option RField
  fields : Option (List RField)
  permissions : Option (List RField)
  workflow : JVal
deriving DecidableEq, Repr

/-- The parts of the `DocType` document that the fallback path reads:
its scalar attributes plus its own `fields` and `permissions` arrays. -/
structure DocTypeDoc where
  attrs : JObj
  fields : Option (List RField)
  permissions : Option (List RField)
deriving DecidableEq, Repr

/-- The canonical schema object both paths of `getDocTypeSchema`
return. -/
structure Schema where
  name : String
  label : JVal
  description : JVal
  module : JVal
  issingle : Bool
  istable : Bool
  custom : Bool
  fields : List RField
  permissions : List RField
  autoname : JVal
  name_case : JVal
  workflow : JVal
  is_submittable : Bool
  quick_entry : Bool
  track_changes : Bool
  track_views : Bool
  has_web_view : Bool
  allow_rename : Bool
  allow_copy : Bool
  allow_import : Bool
  allow_events_in_timeline : Bool
  allow_auto_repeat : Bool
  document_type : JVal
  icon : JVal
  max_attachments : JVal
deriving DecidableEq, Repr

/-- The per-field mapping of the metadata path: each raw field record is
rebuilt as the object literal of the source, normalizing the numeric
`reqd` / `in_list_view` / ... flags with `=== 1` to booleans and
deriving `linked_doctype` / `child_doctype` from `options` when the
field type is `Link` / `Table`. -/
def mapMetaField (field : RField) : RField :=
  [("fieldname", jGet field "fieldname"),
   ("label", jGet field "label"),
   ("fieldtype", jGet field "fieldtype"),
   ("required", .bool ((jGet field "reqd").isOne)),
   ("description", jGet field "description"),
   ("default", jGet field "default"),
   ("options", jGet field "options"),
   ("min_length", jGet field "min_length"),
   ("max_length", jGet field "max_length"),
   ("min_value", jGet field "min_value"),
   ("max_value", jGet field "max_value"),
   ("linked_doctype",
     if (jGet field "fieldtype").isStr "Link" then jGet field "options" else .null),
   ("child_doctype",
     if (jGet field "fieldtype").isStr "Table" then jGet field "options" else .null),
   ("in_list_view", .bool ((jGet field "in_list_view").isOne)),
   ("in_standard_filter", .bool ((jGet field "in_standard_filter").isOne)),
   ("in_global_search", .bool ((jGet field "in_global_search").isOne)),
   ("bold", .bool ((jGet field "bold").isOne)),
   ("hidden", .bool ((jGet field "hidden").isOne)),
   ("read_only", .bool ((jGet field "read_only").isOne)),
   ("allow_on_submit", .bool ((jGet field "allow_on_submit").isOne)),
   ("set_only_once", .bool ((jGet field "set_only_once").isOne)),
   ("allow_bulk_edit", .bool ((jGet field "allow_bulk_edit").isOne)),
   ("translatable", .bool ((jGet field "translatable").isOne))]

/-- The schema the metadata path builds from the bundle
(`doctypeInfo = docTypeData.doctype || {}`; fields mapped through
`mapMetaField`; `=== 1` normalization of the doctype-level flags). -/
def metaSchema (doctype : String) (md : MetaBundle) : Schema :=
  let info := md.doctype.getD []
  { name := doctype
    label := (jGet info "name").orElse (.str doctype)
    description := jGet info "description"
    module := jGet info "module"
    issingle := (jGet info "issingle").isOne
    istable := (jGet info "istable").isOne
    custom := (jGet info "custom").isOne
    fields := (md.fields.getD []).map mapMetaField
    permissions := md.permissions.getD []
    autoname := jGet info "autoname"
    name_case := jGet info "name_case"
    workflow := md.workflow.orElse .null
    is_submittable := (jGet info "is_submittable").isOne
    quick_entry := (jGet info "quick_entry").isOne
    track_changes := (jGet info "track_changes").isOne
    track_views := (jGet info "track_views").isOne
    has_web_view := (jGet info "has_web_view").isOne
    allow_rename := (jGet info "allow_rename").isOne
    allow_copy := (jGet info "allow_copy").isOne
    allow_import := (jGet info "allow_import").isOne
    allow_events_in_timeline := (jGet info "allow_events_in_timeline").isOne
    allow_auto_repeat := (jGet info "allow_auto_repeat").isOne
    document_type := jGet info "document_type"
    icon := jGet info "icon"
    max_attachments := jGet info "max_attachments" }

/-- The schema the document-API fallback builds from the `DocType`
document: the doctype-level flags get the same `=== 1` normalization,
but `fields` and `permissions` are the document's own raw arrays passed
through unchanged (`doctypeDoc.fields || []`), and `workflow` is
`null`. -/
def fallbackSchema (doctype : String) (dd : DocTypeDoc) : Schema :=
  { name := doctype
    label := (jGet dd.attrs "name").orElse (.str doctype)
    description := jGet dd.attrs "description"
    module := jGet dd.attrs "module"
    issingle := (jGet dd.attrs "issingle").isOne
    istable := (jGet dd.attrs "istable").isOne
    custom := (jGet dd.attrs "custom").isOne
    fields := dd.fields.getD []
    permissions := dd.permissions.getD []
    autoname := jGet dd.attrs "autoname"
    name_case := jGet dd.attrs "name_case"
    workflow := .null
    is_submittable := (jGet dd.attrs "is_submittable").isOne
    quick_entry := (jGet dd.attrs "quick_entry").isOne
    track_changes := (jGet dd.attrs "track_changes").isOne
    track_views := (jGet dd.attrs "track_views").isOne
    has_web_view := (jGet dd.attrs "has_web_view").isOne
    allow_rename := (jGet dd.attrs "allow_rename").isOne
    allow_copy := (jGet dd.attrs "allow_copy").isOne
    allow_import := (jGet dd.attrs "allow_import").isOne
    allow_events_in_timeline := (jGet dd.attrs "allow_events_in_timeline").isOne
    allow_auto_repeat := (jGet dd.attrs "allow_auto_repeat").isOne
    document_type := jGet dd.attrs "document_type"
    icon := jGet dd.attrs "icon"
    max_attachments := jGet dd.attrs "max_attachments" }

/-- `getDocTypeSchema(doctype)` with the two strategies' outcomes
passed in: `metaR` is the metadata-endpoint call (its exception is
swallowed, leaving the response undefined), `docR` the direct fetch of
the `DocType` document made through `getDocument`.  A truthy metadata
response wins; otherwise the fallback reconstruction is used; if both
fail, the final `Could not retrieve schema` error is thrown and routed
through `handleApiError`, as is the empty-doctype validation error. -/
def getDocTypeSchema (doctype : String)
    (metaR : Except JsError (Option MetaBundle))
    (docR : Except JsError (Option DocTypeDoc)) : Except JsError Schema :=
  let op := "get_doctype_schema(" ++ doctype ++ ")"
  if doctype = "" then
    .error (handleApiError (.plain "DocType name is required") op)
  else
    let resp : Option MetaBundle :=
      match metaR with
      | .ok r => r
      | .error _ => none
    match resp with
    | some md => .ok (metaSchema doctype md)
    | none =>
        match (getDocument "DocType" doctype docR).result with
        | .ok dd => .ok (fallbackSchema doctype dd)
        | .error _ =>
            .error (handleApiError
              (.plain ("Could not retrieve schema for DocType " ++ doctype ++
                " using any available method")) op)

/-!
## Field options (`getFieldOptions`)
-/

/-- One `{value, label}` entry returned by `getFieldOptions`. -/
structure OptionPair where
  value : String
  label : String
deriving DecidableEq, Repr

/-- A document returned by the Link-branch `getDocList` queries: its
`name` plus the display attributes the label composition may read. -/
structure LinkItem where
  name : String
  attrs : List (String × String)
deriving DecidableEq, Repr

/-- A `getDocList` call issued by the Link branch: target doctype,
`limit`, projected `fields`, and the forwarded `filters`. -/
structure LinkListQuery where
  doctype : String
  limit : Nat
  fields : List String
  filters : Option JObj
deriving DecidableEq, Repr

/-- Observable outcome of one `getFieldOptions` call: the settled
promise and the `getDocList` calls issued, in order. -/
structure GfoRun where
  result : Except JsError (List OptionPair)
  queries : List LinkListQuery
deriving DecidableEq, Repr

/-- The display-field selection of the Link branch: the single
`linkedSchema.fields.find(f => f.fieldname === "title" || f.bold === 1)`
pass — the first field that is literally named `title` or carries the
numeric bold flag, whichever comes first. -/
def findDisplayField (fields : List RField) : Option RField :=
  fields.find? (fun f => (jGet f "fieldname").isStr "title" || (jGet f "bold").isOne)

/-- The label composition of the Link branch:
`` titleField && item[titleField.fieldname] ? `${item.name} - ${...}` : item.name ``. -/
def linkOptionLabel (titleField : Option RField) (item : LinkItem) : String :=
  match titleField with
  | some tf =>
      match item.attrs.find? (fun p => p.1 == (jGet tf "fieldname").toStr) with
      | some p => if p.2 ≠ "" then item.name ++ " - " ++ p.2 else item.name
      | none => item.name
  | none => item.name

/-- The Select branch's options-string processing:
split on newlines, drop the lines that trim to nothing, and use each
remaining line, trimmed, as both value and label. -/
def selectFieldOptions (s : String) : List OptionPair :=
  ((jsSplit '\n' s).filter (fun o => jsTrim o ≠ "")).map (fun o => ⟨jsTrim o, jsTrim o⟩)

/-- `getFieldOptions(doctype, fieldname, filters?)` with the outcomes
of its remote calls passed in: the schema fetch for `doctype`
(`metaR`/`docR`, composed through `getDocTypeSchema`), the schema fetch
for the linked doctype (`linkedMetaR`/`linkedDocR`), the main Link-branch
`getDocList` (`listR`) and the name-only fallback `getDocList`
(`fallbackListR`).  Field resolution, the Link branch with its
error-triggered fallback, the Select branch and the Table/other
branches follow the source; the final `catch` wraps axios errors via
`FrappeApiError.fromAxiosError` and everything else into
`Error getting field options for <doctype>.<fieldname>: <msg>`. -/
def getFieldOptions (doctype fieldname : String) (filters : Option JObj)
    (metaR : Except JsError (Option MetaBundle))
    (docR : Except JsError (Option DocTypeDoc))
    (linkedMetaR : Except JsError (Option MetaBundle))
    (linkedDocR : Except JsError (Option DocTypeDoc))
    (listR : Except JsError (Option (List LinkItem)))
    (fallbackListR : Except JsError (Option (List LinkItem))) : GfoRun :=
  let op := "get_field_options(" ++ doctype ++ ", " ++ fieldname ++ ")"
  let wrap : JsError → JsError := fun e =>
    match e with
    | .axios a => FrappeApiError.fromAxiosError a op
    | e =>
        .api ("Error getting field options for " ++ doctype ++ "." ++ fieldname ++ ": " ++
          e.message) none none
  if doctype = "" then
    ⟨.error (wrap (.plain "DocType name is required")), []⟩
  else if fieldname = "" then
    ⟨.error (wrap (.plain "Field name is required")), []⟩
  else
    match getDocTypeSchema doctype metaR docR with
    | .error e => ⟨.error (wrap e), []⟩
    | .ok schema =>
        match schema.fields.find? (fun f => (jGet f "fieldname").isStr fieldname) with
        | none =>
            ⟨.error (wrap (.plain ("Field " ++ fieldname ++ " not found in DocType " ++ doctype))),
              []⟩
        | some field =>
            if (jGet field "fieldtype").isStr "Link" then
              let linkedJ := jGet field "options"
              if !linkedJ.truthy then
                ⟨.error (wrap (.plain ("Link field " ++ fieldname ++
                  " has no options (linked DocType) specified"))), []⟩
              else
                let linkedDocType := linkedJ.toStr
                let fq : LinkListQuery := ⟨linkedDocType, 50, ["name"], filters⟩
                let runFallback : List LinkListQuery → GfoRun := fun qs =>
                  match fallbackListR with
                  | .error e => ⟨.error (wrap e), qs ++ [fq]⟩
                  | .ok none =>
                      ⟨.error (wrap (.plain ("Invalid response for DocType " ++ linkedDocType))),
                        qs ++ [fq]⟩
                  | .ok (some items) =>
                      ⟨.ok (items.map (fun it => ⟨it.name, it.name⟩)), qs ++ [fq]⟩
                match getDocTypeSchema linkedDocType linkedMetaR linkedDocR with
                | .error _ => runFallback []
                | .ok linkedSchema =>
                    let titleField := findDisplayField linkedSchema.fields
                    let displayFields :=
                      match titleField with
                      | some tf => ["name", (jGet tf "fieldname").toStr]
                      | none => ["name"]
                    let q : LinkListQuery := ⟨linkedDocType, 50, displayFields, filters⟩
                    match listR with
                    | .error _ => runFallback [q]
                    | .ok none => runFallback [q]
                    | .ok (some items) =>
                        ⟨.ok (items.map (fun it => ⟨it.name, linkOptionLabel titleField it⟩)),
                          [q]⟩
            else if (jGet field "fieldtype").isStr "Select" then
              let optsJ := jGet field "options"
              if !optsJ.truthy then
                ⟨.ok [], []⟩
              else
                match optsJ with
                | .str s => ⟨.ok (selectFieldOptions s), []⟩
                | _ => ⟨.error (wrap (.plain "field.options.split is not a function")), []⟩
            else
              ⟨.ok [], []⟩

/-!
## Helper lemmas
-/

/-- `handleApiError` always produces a structured `FrappeApiError`,
whatever it is given. -/
theorem handleApiError_isApi (e : JsError) (op : String) :
    (handleApiError e op).isApi = true := by
  cases e with
  | axios a =>
      unfold handleApiError FrappeApiError.fromAxiosError
      rcases a with ⟨m, st, u, d⟩
      cases d with
      | none => rfl
      | some dd =>
          rcases dd with ⟨exc, sm, dm⟩
          cases exc with
          | some x => rfl
          | none =>
              cases sm with
              | some smv => cases smv <;> rfl
              | none => cases dm <;> rfl
  | plain m => rfl
  | api m s ep => rfl

/-- Filtering the non-blank lines and then trimming is the same as
trimming every line and then dropping the blank ones. -/
theorem selectFieldOptions_trim_comm (l : List String) :
    (l.filter (fun o => jsTrim o ≠ "")).map (fun o => (⟨jsTrim o, jsTrim o⟩ : OptionPair)) =
      ((l.map jsTrim).filter (fun t => t ≠ "")).map (fun t => (⟨t, t⟩ : OptionPair)) := by
  induction l with
  | nil => rfl
  | cons a l ih =>
      by_cases h : jsTrim a = "" <;> simp [h] <;> simpa using ih

/-- `selectFieldOptions`, stated the way the spec reads: split on
newlines, trim each line, discard the blank ones, and keep each
remaining line in source order as both value and label. -/
theorem selectFieldOptions_spec (s : String) :
    selectFieldOptions s =
      (((jsSplit '\n' s).map jsTrim).filter (fun t => t ≠ "")).map
        (fun t => (⟨t, t⟩ : OptionPair)) := by
  unfold selectFieldOptions
  exact selectFieldOptions_trim_comm _

/-!
## Claim C9
-/

/-- Shared helper: `verifyDocumentCreation` always resolves with a
report value. -/
theorem verifyDocumentCreation_ok (values : CreateValues) (resp : CreationResponse)
    (getDocR : Except JsError (Option Doc))
    (getListR : Except JsError (Option (List Doc))) :
    ∃ r : VerificationResult,
      verifyDocumentCreation values resp getDocR getListR = .ok r := by
  unfold verifyDocumentCreation
  by_cases hn : strTruthy resp.name
  · by_cases hd : directFetchHit (resp.name.getD "") getDocR
    · simp [hn, hd]
    · cases hf : buildVerifyFilters values with
      | none => simp [hn, hd, hf]
      | some f =>
          cases getListR with
          | error e => simp [hn, hd, hf]
          | ok docsOpt =>
              cases docsOpt with
              | none => simp [hn, hd, hf]
              | some docs =>
                  by_cases hl : docs.length > 0
                  · by_cases ha : docs.any (fun d => d.name == some (resp.name.getD ""))
                    · simp [hn, hd, hf, hl, ha]
                    · simp [hn, hd, hf, hl, ha]
                  · simp [hn, hd, hf, hl]
  · simp [hn]

/-- Claim C9: for every input, including inputs for which the inner
direct fetch or the filtered list query throws, `verifyDocumentCreation`
resolves with a `{success, message}` report value and never propagates
an exception. -/
theorem claim_C9_never_throws (values : CreateValues) (resp : CreationResponse)
    (getDocR : Except JsError (Option Doc))
    (getListR : Except JsError (Option (List Doc))) :
    ∃ r : VerificationResult,
      verifyDocumentCreation values resp getDocR getListR = .ok r :=
  verifyDocumentCreation_ok values resp getDocR getListR

/-!
## Claim C10
-/

/-- Claim C10: when the resolved schema has no field with the requested
fieldname, `getFieldOptions` rejects with a structured `FrappeApiError`
whose message names the field and the doctype, and never resolves with
an empty sequence. -/
theorem claim_C10_missing_field (d f : String) (filters : Option JObj)
    (metaR : Except JsError (Option MetaBundle)) (docR : Except JsError (Option DocTypeDoc))
    (lm : Except JsError (Option MetaBundle)) (ld : Except JsError (Option DocTypeDoc))
    (lr flr : Except JsError (Option (List LinkItem))) (schema : Schema)
    (hd : d ≠ "") (hf : f ≠ "")
    (hs : getDocTypeSchema d metaR docR = .ok schema)
    (hfind : schema.fields.find? (fun fl => (jGet fl "fieldname").isStr f) = none) :
    (getFieldOptions d f filters metaR docR lm ld lr flr).result =
      .error (.api ("Error getting field options for " ++ d ++ "." ++ f ++ ": " ++
        ("Field " ++ f ++ " not found in DocType " ++ d)) none none) ∧
    ∀ l : List OptionPair, (getFieldOptions d f filters metaR docR lm ld lr flr).result ≠ .ok l := by
  unfold getFieldOptions
  simp [hd, hf, hs, hfind, JsError.message]

/-- Witness for C10: a concrete doctype whose (metadata-path) schema has
no fields at all, so the lookup of `priority` fails and the structured
error names both the field and the doctype. -/
theorem claim_C10_witness :
    (getFieldOptions "Task" "priority" none
        (.ok (some ⟨some [], some [], none, .undefined⟩)) (.ok none)
        (.ok none) (.ok none) (.ok none) (.ok none)).result =
      .error (.api "Error getting field options for Task.priority: Field priority not found in DocType Task" none none) := by
  exact (claim_C10_missing_field "Task" "priority" none
    (.ok (some ⟨some [], some [], none, .undefined⟩)) (.ok none)
    (.ok none) (.ok none) (.ok none) (.ok none)
    (metaSchema "Task" ⟨some [], some [], none, .undefined⟩)
    (by decide) (by decide) rfl rfl).1

/-!
## Claim C8
-/

/-- Claim C8, counterexample to the claim as stated: the Select branch
does not deduplicate.  On the options string `"A\nA"` it returns two
identical entries, while returning "each distinct remaining line"
would give the single entry `{value: "A", label: "A"}`. -/
theorem claim_C8_counterexample :
    (getFieldOptions "Task" "priority" none
        (.ok (some ⟨some [], some [[("fieldname", .str "priority"),
          ("fieldtype", .str "Select"), ("options", .str "A\nA")]], none, .undefined⟩))
        (.ok none) (.ok none) (.ok none) (.ok none) (.ok none)).result =
      .ok [⟨"A", "A"⟩, ⟨"A", "A"⟩] ∧
    (getFieldOptions "Task" "priority" none
        (.ok (some ⟨some [], some [[("fieldname", .str "priority"),
          ("fieldtype", .str "Select"), ("options", .str "A\nA")]], none, .undefined⟩))
        (.ok none) (.ok none) (.ok none) (.ok none) (.ok none)).result ≠
      .ok [⟨"A", "A"⟩] := by
  decide

/-- Claim C8 as amended: for every Select field, `getFieldOptions`
splits the raw options string on newlines, trims each line, discards the
blank lines, and returns each remaining line — duplicates included — as
both value and label, preserving source order. -/
theorem claim_C8_select_spec (d f s : String) (filters : Option JObj)
    (docR : Except JsError (Option DocTypeDoc)) (lm : Except JsError (Option MetaBundle))
    (ld : Except JsError (Option DocTypeDoc)) (lr flr : Except JsError (Option (List LinkItem)))
    (hd : d ≠ "") (hf : f ≠ "") :
    (getFieldOptions d f filters
        (.ok (some ⟨some [], some [[("fieldname", .str f), ("fieldtype", .str "Select"),
          ("options", .str s)]], none, .undefined⟩))
        docR lm ld lr flr).result =
      .ok ((((jsSplit '\n' s).map jsTrim).filter (fun t => t ≠ "")).map
        (fun t => (⟨t, t⟩ : OptionPair))) := by
  have hschema : getDocTypeSchema d
      (.ok (some ⟨some [], some [[("fieldname", .str f), ("fieldtype", .str "Select"),
        ("options", .str s)]], none, .undefined⟩)) docR =
      .ok (metaSchema d ⟨some [], some [[("fieldname", .str f), ("fieldtype", .str "Select"),
        ("options", .str s)]], none, .undefined⟩) := by
    simp [getDocTypeSchema, hd]
  unfold getFieldOptions
  simp only [hschema]
  by_cases hs0 : s = ""
  · subst hs0
    simp [hd, hf, metaSchema, mapMetaField, jGet, JVal.isStr, JVal.isOne, JVal.truthy, List.find?]
    decide
  · simp [hd, hf, metaSchema, mapMetaField, jGet, JVal.isStr, JVal.isOne, JVal.truthy,
      List.find?, hs0, selectFieldOptions_spec]

/-- Witness for C8: the spec's own example — options
`"Low\nMedium\n\nHigh"` yields exactly Low, Medium, High in order. -/
theorem claim_C8_witness :
    (getFieldOptions "Task" "priority" none
        (.ok (some ⟨some [], some [[("fieldname", .str "priority"),
          ("fieldtype", .str "Select"), ("options", .str "Low\nMedium\n\nHigh")]], none, .undefined⟩))
        (.ok none) (.ok none) (.ok none) (.ok none) (.ok none)).result =
      .ok [⟨"Low", "Low"⟩, ⟨"Medium", "Medium"⟩, ⟨"High", "High"⟩] := by
  rw [claim_C8_select_spec "Task" "priority" "Low\nMedium\n\nHigh" none
    (.ok none) (.ok none) (.ok none) (.ok none) (.ok none) (by decide) (by decide)]
  decide

/-!
## Claim C3
-/

/-- Claim C3, counterexample to the claim as stated: `order_by`
`"a b desc"` carries a trailing ` desc` token and its bare field name is
`"a b"`, but the channel call receives only the first space-delimited
token `"a"`. -/
theorem claim_C3_counterexample :
    (listDocumentsChannelCall none none none (some "a b desc") none).orderBy =
      some ("a", "desc") ∧
    (listDocumentsChannelCall none none none (some "a b desc") none).orderBy ≠
      some ("a b", "desc") ∧
    "a b" ++ " desc" = "a b desc" := by
  decide

/-- Claim C3 as amended: a trailing ` asc` / ` desc` token sets the
separate direction parameter and the field passed on is the *first
space-delimited token* of `order_by` (which equals the bare field name
whenever the field name contains no space); without a trailing token the
direction defaults to ascending; `order_by="creation desc"` produces the
same channel call as `order_by="creation"` with direction `desc`; and
the token-channel and password-channel variants build identical channel
calls. -/
theorem claim_C3_order_by_spec :
    (∀ (ob f : String) (filters : Option JObj) (fields : Option (List String))
        (limit ls : Option Nat),
        jsEndsWith ob " desc" = true → (jsSplit ' ' ob).headD "" = f →
        (listDocumentsChannelCall filters fields limit (some ob) ls).orderBy =
          (if f = "" then none else some (f, "desc"))) ∧
    (∀ (ob f : String) (filters : Option JObj) (fields : Option (List String))
        (limit ls : Option Nat),
        jsEndsWith ob " desc" = false → jsEndsWith ob " asc" = true →
        (jsSplit ' ' ob).headD "" = f →
        (listDocumentsChannelCall filters fields limit (some ob) ls).orderBy =
          (if f = "" then none else some (f, "asc"))) ∧
    (∀ (ob : String) (filters : Option JObj) (fields : Option (List String))
        (limit ls : Option Nat),
        jsEndsWith ob " desc" = false → jsEndsWith ob " asc" = false →
        (listDocumentsChannelCall filters fields limit (some ob) ls).orderBy =
          (if ob = "" then none else some (ob, "asc"))) ∧
    (∀ (filters : Option JObj) (fields : Option (List String)) (limit ls : Option Nat),
        (listDocumentsChannelCall filters fields limit none ls).orderBy = none) ∧
    (∀ (filters : Option JObj) (fields : Option (List String)) (limit ls : Option Nat),
        listDocumentsChannelCall filters fields limit (some "creation desc") ls =
          { listDocumentsChannelCall filters fields limit (some "creation") ls with
              orderBy := some ("creation", "desc") }) ∧
    ((listDocumentsChannelCall none none none (some "creation") none).orderBy =
      some ("creation", "asc")) ∧
    (∀ (filters : Option JObj) (fields : Option (List String)) (limit : Option Nat)
        (ob : Option String) (ls : Option Nat),
        listDocumentsChannelCall filters fields limit ob ls =
          listDocumentsWithAuthChannelCall filters fields limit ob ls) := by
  refine ⟨?_, ?_, ?_, ?_, ?_, ?_, ?_⟩
  · intro ob f filters fields limit ls h1 h2
    subst h2
    simp [listDocumentsChannelCall, splitOrderBy, h1]
  · intro ob f filters fields limit ls h1 h2 h3
    subst h3
    simp [listDocumentsChannelCall, splitOrderBy, h1, h2]
  · intro ob filters fields limit ls h1 h2
    simp [listDocumentsChannelCall, splitOrderBy, h1, h2]
  · intro filters fields limit ls
    rfl
  · intro filters fields limit ls
    have ha : jsEndsWith "creation desc" " desc" = true := by decide
    have hb : jsEndsWith "creation" " desc" = false := by decide
    have hc : jsEndsWith "creation" " asc" = false := by decide
    have hdd : (jsSplit ' ' "creation desc").head?.getD "" = "creation" := by decide
    simp [listDocumentsChannelCall, splitOrderBy, ha, hb, hc, hdd]
  · decide
  · intro filters fields limit ob ls
    rfl

/-- Witness for C3: the split rule applied at `order_by =
"creation desc"`. -/
theorem claim_C3_witness :
    (listDocumentsChannelCall none none none (some "creation desc") none).orderBy =
      some ("creation", "desc") := by
  have h := claim_C3_order_by_spec.1 "creation desc" "creation" none none none none
    (by decide) (by decide)
  simpa using h

/-!
## Claim C1
-/

/-- The retry loop never issues more create attempts than
`maxRetries`. -/
theorem createDocumentWithRetryGo_attempts_le (o : Nat → AttemptOutcome) (maxR : Nat) :
    ∀ (fuel attempt : Nat) (le : Option String) (d : List Nat), attempt ≤ maxR + 1 →
      (createDocumentWithRetryGo o maxR fuel attempt le d).attempts ≤ maxR := by
  intro fuel
  induction fuel with
  | zero =>
      intro attempt le d h
      simp [createDocumentWithRetryGo]
      omega
  | succ fuel ih =>
      intro attempt le d h
      by_cases ha : attempt ≤ maxR
      · cases ho : o attempt with
        | created r v =>
            by_cases hv : v.success
            · simp [createDocumentWithRetryGo, ha, ho, hv]
            · simp [createDocumentWithRetryGo, ha, ho, hv]
              exact ih _ _ _ (by omega)
        | throws e =>
            simp [createDocumentWithRetryGo, ha, ho]
            exact ih _ _ _ (by omega)
      · simp [createDocumentWithRetryGo, ha]
        omega

/-- Replacing an unverified attempt by a thrown
`Verification failed: <message>` error leaves every run of the retry
loop unchanged: the loop treats the two alike. -/
theorem createDocumentWithRetryGo_unverified_eq_throws
    (o o' : Nat → AttemptOutcome) (maxR k : Nat) (r : CreateResp) (m : String)
    (hk : o k = .created r ⟨false, m⟩)
    (ho' : ∀ j, o' j = if j = k then .throws ("Verification failed: " ++ m) else o j) :
    ∀ (fuel attempt : Nat) (le : Option String) (d : List Nat),
      createDocumentWithRetryGo o maxR fuel attempt le d =
        createDocumentWithRetryGo o' maxR fuel attempt le d := by
  intro fuel
  induction fuel with
  | zero => intro attempt le d; rfl
  | succ fuel ih =>
      intro attempt le d
      by_cases ha : attempt ≤ maxR
      · by_cases hak : attempt = k
        · subst hak
          have h1 : o' attempt = .throws ("Verification failed: " ++ m) := by
            rw [ho' attempt]; simp
          simp [createDocumentWithRetryGo, ha, hk, h1, ih]
        · have h1 : o' attempt = o attempt := by
            rw [ho' attempt]; simp [hak]
          cases ho : o attempt with
          | created r2 v2 =>
              by_cases hv : v2.success <;>
                simp [createDocumentWithRetryGo, ha, ho, h1, hv, ih]
          | throws e =>
              simp [createDocumentWithRetryGo, ha, ho, h1, ih]
      · simp [createDocumentWithRetryGo, ha]

/-- A three-attempt run in which every attempt fails: the loop waits
after each of the three failed attempts — the third wait included — and
then throws the error recorded for the last attempt. -/
theorem createDocumentWithRetry_allfail (o : Nat → AttemptOutcome)
    (h1 : (o 1).failed = true) (h2 : (o 2).failed = true) (h3 : (o 3).failed = true) :
    createDocumentWithRetry o 3 =
      ⟨.error (((o 3).recordedError).getD ""), 3, [1000, 2000, 4000]⟩ := by
  cases ho1 : o 1 with
  | throws e1 =>
      cases ho2 : o 2 with
      | throws e2 =>
          cases ho3 : o 3 with
          | throws e3 =>
              simp [createDocumentWithRetry, createDocumentWithRetryGo, ho1, ho2, ho3,
                AttemptOutcome.recordedError]
          | created r3 v3 =>
              have hv3 : v3.success = false := by
                have := h3; rw [ho3] at this; simpa [AttemptOutcome.failed] using this
              simp [createDocumentWithRetry, createDocumentWithRetryGo, ho1, ho2, ho3, hv3,
                AttemptOutcome.recordedError]
      | created r2 v2 =>
          have hv2 : v2.success = false := by
            have := h2; rw [ho2] at this; simpa [AttemptOutcome.failed] using this
          cases ho3 : o 3 with
          | throws e3 =>
              simp [createDocumentWithRetry, createDocumentWithRetryGo, ho1, ho2, ho3, hv2,
                AttemptOutcome.recordedError]
          | created r3 v3 =>
              have hv3 : v3.success = false := by
                have := h3; rw [ho3] at this; simpa [AttemptOutcome.failed] using this
              simp [createDocumentWithRetry, createDocumentWithRetryGo, ho1, ho2, ho3, hv2, hv3,
                AttemptOutcome.recordedError]
  | created r1 v1 =>
      have hv1 : v1.success = false := by
        have := h1; rw [ho1] at this; simpa [AttemptOutcome.failed] using this
      cases ho2 : o 2 with
      | throws e2 =>
          cases ho3 : o 3 with
          | throws e3 =>
              simp [createDocumentWithRetry, createDocumentWithRetryGo, ho1, ho2, ho3, hv1,
                AttemptOutcome.recordedError]
          | created r3 v3 =>
              have hv3 : v3.success = false := by
                have := h3; rw [ho3] at this; simpa [AttemptOutcome.failed] using this
              simp [createDocumentWithRetry, createDocumentWithRetryGo, ho1, ho2, ho3, hv1, hv3,
                AttemptOutcome.recordedError]
      | created r2 v2 =>
          have hv2 : v2.success = false := by
            have := h2; rw [ho2] at this; simpa [AttemptOutcome.failed] using this
          cases ho3 : o 3 with
          | throws e3 =>
              simp [createDocumentWithRetry, createDocumentWithRetryGo, ho1, ho2, ho3, hv1, hv2,
                AttemptOutcome.recordedError]
          | created r3 v3 =>
              have hv3 : v3.success = false := by
                have := h3; rw [ho3] at this; simpa [AttemptOutcome.failed] using this
              simp [createDocumentWithRetry, createDocumentWithRetryGo, ho1, ho2, ho3, hv1, hv2,
                hv3, AttemptOutcome.recordedError]

/-- Claim C1, counterexample to the claim as stated: when all three
attempts fail, the loop waits after the third failed attempt as well, so
the backoff delays are 1s, 2s *and 4s* and the last error is raised
after 7 seconds of cumulative delay, not after ≈3 seconds. -/
theorem claim_C1_counterexample :
    (createDocumentWithRetry (fun _ => .created [] ⟨false, "no"⟩) 3).delays =
      [1000, 2000, 4000] ∧
    (createDocumentWithRetry (fun _ => .created [] ⟨false, "no"⟩) 3).delays.sum = 7000 ∧
    (createDocumentWithRetry (fun _ => .created [] ⟨false, "no"⟩) 3).delays ≠ [1000, 2000] ∧
    (createDocumentWithRetry (fun _ => .created [] ⟨false, "no"⟩) 3).result =
      .error "Verification failed: no" ∧
    (createDocumentWithRetry (fun _ => .created [] ⟨false, "no"⟩) 3).attempts = 3 := by
  decide

/-- Claim C1 as amended: `createDocumentWithRetry` makes at most 3
create attempts; an unverified verification result is treated exactly
like a transport failure (replacing one by the other changes nothing);
and when all 3 attempts fail it waits 1s, 2s and 4s — one delay after
each failed attempt, the third included — and then raises the last
observed error, after 7 seconds of cumulative backoff delay. -/
theorem claim_C1_retry_spec :
    (∀ o : Nat → AttemptOutcome, (createDocumentWithRetry o 3).attempts ≤ 3) ∧
    (∀ (o o' : Nat → AttemptOutcome) (k : Nat) (r : CreateResp) (m : String),
        o k = .created r ⟨false, m⟩ →
        (∀ j, o' j = if j = k then .throws ("Verification failed: " ++ m) else o j) →
        createDocumentWithRetry o 3 = createDocumentWithRetry o' 3) ∧
    (∀ o : Nat → AttemptOutcome,
        (o 1).failed = true → (o 2).failed = true → (o 3).failed = true →
        (createDocumentWithRetry o 3).attempts = 3 ∧
        (createDocumentWithRetry o 3).delays = [1000, 2000, 4000] ∧
        (createDocumentWithRetry o 3).delays.sum = 7000 ∧
        (createDocumentWithRetry o 3).result = .error (((o 3).recordedError).getD "")) := by
  refine ⟨?_, ?_, ?_⟩
  · intro o
    exact createDocumentWithRetryGo_attempts_le o 3 4 1 none [] (by omega)
  · intro o o' k r m hk ho'
    exact createDocumentWithRetryGo_unverified_eq_throws o o' 3 k r m hk ho' 4 1 none []
  · intro o h1 h2 h3
    rw [createDocumentWithRetry_allfail o h1 h2 h3]
    simp

/-- Witness for C1: three thrown attempts produce exactly the 1s/2s/4s
delays and raise the last thrown error. -/
theorem claim_C1_witness :
    (createDocumentWithRetry (fun _ => .throws "boom") 3).attempts = 3 ∧
    (createDocumentWithRetry (fun _ => .throws "boom") 3).delays = [1000, 2000, 4000] ∧
    (createDocumentWithRetry (fun _ => .throws "boom") 3).delays.sum = 7000 ∧
    (createDocumentWithRetry (fun _ => .throws "boom") 3).result = .error "boom" := by
  have h := claim_C1_retry_spec.2.2 (fun _ => .throws "boom")
    (by decide) (by decide) (by decide)
  simpa [AttemptOutcome.recordedError] using h

/-!
## Claim C2
-/

/-- Claim C2: the verification cascade, stopping at the first
conclusive step.  A response without a truthy name reports failure
(never success, whatever `values` holds); a matching direct fetch
reports success; otherwise the filter is built from the first available
of exact `name`, exact `title`, or a contains-match on the first 20
characters of `description`, and the filter query — issued with
`limit: 5` — reports success when some returned document carries the
expected name, a count-naming failure when results exist but none
match, a not-found failure when no results exist, and a
no-suitable-filters failure when no discriminating field was
available. -/
theorem claim_C2_verification_cascade (values : CreateValues) (resp : CreationResponse)
    (getDocR : Except JsError (Option Doc)) (getListR : Except JsError (Option (List Doc))) :
    (strTruthy resp.name = false →
      verifyDocumentCreation values resp getDocR getListR =
        .ok ⟨false, "Response does not contain a document name"⟩) ∧
    (∀ n : String, resp.name = some n → n ≠ "" →
      directFetchHit n getDocR = true →
      verifyDocumentCreation values resp getDocR getListR =
        .ok ⟨true, "Document verified by direct fetch"⟩) ∧
    ((strTruthy values.name = true →
        buildVerifyFilters values = some ("name", "=", values.name.getD "")) ∧
     (strTruthy values.name = false → strTruthy values.title = true →
        buildVerifyFilters values = some ("title", "=", values.title.getD "")) ∧
     (strTruthy values.name = false → strTruthy values.title = false →
        strTruthy values.description = true →
        buildVerifyFilters values =
          some ("description", "like",
            "%" ++ jsSubstringTo (values.description.getD "") 20 ++ "%")) ∧
     (strTruthy values.name = false → strTruthy values.title = false →
        strTruthy values.description = false → buildVerifyFilters values = none)) ∧
    (∀ (d : String) (q : DocListQuery), verifyListQuery d values = some q →
      q.limit = some 5) ∧
    (∀ (n : String) (f : VerifyFilter) (docs : List Doc),
      resp.name = some n → n ≠ "" → directFetchHit n getDocR = false →
      buildVerifyFilters values = some f → getListR = .ok (some docs) →
      docs.any (fun dd => dd.name == some n) = true →
      verifyDocumentCreation values resp getDocR getListR =
        .ok ⟨true, "Document verified by filter search"⟩) ∧
    (∀ (n : String) (f : VerifyFilter) (docs : List Doc),
      resp.name = some n → n ≠ "" → directFetchHit n getDocR = false →
      buildVerifyFilters values = some f → getListR = .ok (some docs) →
      docs ≠ [] → docs.any (fun dd => dd.name == some n) = false →
      verifyDocumentCreation values resp getDocR getListR =
        .ok ⟨false, "Found " ++ toString docs.length ++
          " documents matching filters, but none match the expected name " ++ n⟩) ∧
    (∀ (n : String) (f : VerifyFilter),
      resp.name = some n → n ≠ "" → directFetchHit n getDocR = false →
      buildVerifyFilters values = some f →
      (getListR = .ok (some []) ∨ getListR = .ok none) →
      verifyDocumentCreation values resp getDocR getListR =
        .ok ⟨false, "No documents found matching the creation filters"⟩) ∧
    (∀ n : String, resp.name = some n → n ≠ "" →
      directFetchHit n getDocR = false → buildVerifyFilters values = none →
      verifyDocumentCreation values resp getDocR getListR =
        .ok ⟨false, "Could not verify document creation - no suitable filters available"⟩) := by
  refine ⟨?_, ?_, ⟨?_, ?_, ?_, ?_⟩, ?_, ?_, ?_, ?_, ?_⟩
  · intro h
    simp [verifyDocumentCreation, h]
  · intro n hn hne hd
    simp [verifyDocumentCreation, hn, hne, hd, strTruthy]
  · intro h
    simp [buildVerifyFilters, h]
  · intro h1 h2
    simp [buildVerifyFilters, h1, h2]
  · intro h1 h2 h3
    simp [buildVerifyFilters, h1, h2, h3]
  · intro h1 h2 h3
    simp [buildVerifyFilters, h1, h2, h3]
  · intro d q h
    unfold verifyListQuery at h
    cases hb : buildVerifyFilters values with
    | none => rw [hb] at h; cases h
    | some f =>
        rw [hb] at h
        injection h with h'
        rw [← h']
  · intro n f docs hn hne hd hb hl ha
    subst hl
    have hlen : docs.length > 0 := by
      cases docs with
      | nil => simp at ha
      | cons a l => simp
    simp [verifyDocumentCreation, hn, hne, hd, hb, ha, hlen, strTruthy]
  · intro n f docs hn hne hd hb hl hnil ha
    subst hl
    have hlen : docs.length > 0 := by
      cases docs with
      | nil => exact absurd rfl hnil
      | cons a l => simp
    simp [verifyDocumentCreation, hn, hne, hd, hb, ha, hlen, strTruthy]
  · intro n f hn hne hd hb hl
    rcases hl with hl | hl <;> subst hl <;>
      simp [verifyDocumentCreation, hn, hne, hd, hb, strTruthy]
  · intro n hn hne hd hb
    simp [verifyDocumentCreation, hn, hne, hd, hb, strTruthy]

/-- Witness for C2: the spec's `ToDo` example — response name
`TODO-0001`, direct fetch returning the same name — verified by direct
fetch. -/
theorem claim_C2_witness :
    verifyDocumentCreation ⟨none, none, none, []⟩ ⟨some "TODO-0001"⟩
        (.ok (some ⟨some "TODO-0001"⟩)) (.ok none) =
      .ok ⟨true, "Document verified by direct fetch"⟩ := by
  exact (claim_C2_verification_cascade ⟨none, none, none, []⟩ ⟨some "TODO-0001"⟩
    (.ok (some ⟨some "TODO-0001"⟩)) (.ok none)).2.1 "TODO-0001" rfl (by decide) (by decide)

/-!
## Claim C4
-/

/-- Claim C4, counterexample to the claim as stated: for the same
underlying field record (`subject`, type `Data`, `reqd = 1`), the
metadata path normalizes the record (`required: true`, derived
`linked_doctype`/`child_doctype`, ...) while the fallback path returns
the raw record unchanged, so the two `fields` sequences differ. -/
theorem claim_C4_counterexample :
    getDocTypeSchema "Task"
        (.ok (some ⟨some [], some [[("fieldname", .str "subject"), ("fieldtype", .str "Data"),
          ("reqd", .num 1)]], none, .undefined⟩))
        (.error (.plain "x")) =
      .ok (metaSchema "Task" ⟨some [], some [[("fieldname", .str "subject"),
        ("fieldtype", .str "Data"), ("reqd", .num 1)]], none, .undefined⟩) ∧
    getDocTypeSchema "Task" (.error (.plain "meta down"))
        (.ok (some ⟨[], some [[("fieldname", .str "subject"), ("fieldtype", .str "Data"),
          ("reqd", .num 1)]], none⟩)) =
      .ok (fallbackSchema "Task" ⟨[], some [[("fieldname", .str "subject"),
        ("fieldtype", .str "Data"), ("reqd", .num 1)]], none⟩) ∧
    (metaSchema "Task" ⟨some [], some [[("fieldname", .str "subject"),
        ("fieldtype", .str "Data"), ("reqd", .num 1)]], none, .undefined⟩).fields =
      [mapMetaField [("fieldname", .str "subject"), ("fieldtype", .str "Data"),
        ("reqd", .num 1)]] ∧
    (fallbackSchema "Task" ⟨[], some [[("fieldname", .str "subject"),
        ("fieldtype", .str "Data"), ("reqd", .num 1)]], none⟩).fields =
      [[("fieldname", .str "subject"), ("fieldtype", .str "Data"), ("reqd", .num 1)]] ∧
    (metaSchema "Task" ⟨some [], some [[("fieldname", .str "subject"),
        ("fieldtype", .str "Data"), ("reqd", .num 1)]], none, .undefined⟩).fields ≠
      (fallbackSchema "Task" ⟨[], some [[("fieldname", .str "subject"),
        ("fieldtype", .str "Data"), ("reqd", .num 1)]], none⟩).fields := by
  decide

/-- Claim C4 as amended: the fallback is taken when the metadata
endpoint errors or returns no data, and a schema-unavailable error is
raised only when both strategies fail; but the fallback's `fields`
sequence is the DocType document's raw field array passed through
unchanged — in upstream declaration order, yet without the metadata
path's 0/1-to-boolean normalization or linked/child-doctype
derivation, which only `mapMetaField` on the metadata path applies. -/
theorem claim_C4_schema_fallback_spec :
    (∀ (d : String) (md : MetaBundle) (docR : Except JsError (Option DocTypeDoc)), d ≠ "" →
        getDocTypeSchema d (.ok (some md)) docR = .ok (metaSchema d md)) ∧
    (∀ (d : String) (e : JsError) (dd : DocTypeDoc), d ≠ "" →
        getDocTypeSchema d (.error e) (.ok (some dd)) = .ok (fallbackSchema d dd)) ∧
    (∀ (d : String) (dd : DocTypeDoc), d ≠ "" →
        getDocTypeSchema d (.ok none) (.ok (some dd)) = .ok (fallbackSchema d dd)) ∧
    (∀ (d : String) (e e' : JsError), d ≠ "" →
        getDocTypeSchema d (.error e) (.error e') =
          .error (.api ("Error during " ++ ("get_doctype_schema(" ++ d ++ ")") ++ ": " ++
            ("Could not retrieve schema for DocType " ++ d ++ " using any available method"))
            none none)) ∧
    (∀ (d : String) (e : JsError), d ≠ "" →
        getDocTypeSchema d (.error e) (.ok none) =
          .error (.api ("Error during " ++ ("get_doctype_schema(" ++ d ++ ")") ++ ": " ++
            ("Could not retrieve schema for DocType " ++ d ++ " using any available method"))
            none none)) ∧
    (∀ (d : String) (md : MetaBundle),
        (metaSchema d md).fields = (md.fields.getD []).map mapMetaField) ∧
    (∀ (d : String) (dd : DocTypeDoc), (fallbackSchema d dd).fields = dd.fields.getD []) := by
  have hdt : ("DocType" : String) ≠ "" := by decide
  refine ⟨?_, ?_, ?_, ?_, ?_, ?_, ?_⟩
  · intro d md docR hd
    simp [getDocTypeSchema, hd]
  · intro d e dd hd
    simp [getDocTypeSchema, getDocument, hd, hdt, handleApiError]
  · intro d dd hd
    simp [getDocTypeSchema, getDocument, hd, hdt, handleApiError]
  · intro d e e' hd
    simp [getDocTypeSchema, getDocument, hd, hdt, handleApiError, JsError.message]
  · intro d e hd
    simp [getDocTypeSchema, getDocument, hd, hdt, handleApiError, JsError.message]
  · intro d md
    rfl
  · intro d dd
    rfl

/-- Witness for C4: the fallback reconstruction applied when the
metadata endpoint throws. -/
theorem claim_C4_witness :
    getDocTypeSchema "Task" (.error (.plain "meta down"))
        (.ok (some ⟨[("description", .str "demo")], some [], none⟩)) =
      .ok (fallbackSchema "Task" ⟨[("description", .str "demo")], some [], none⟩) := by
  exact claim_C4_schema_fallback_spec.2.1 "Task" (.plain "meta down")
    ⟨[("description", .str "demo")], some [], none⟩ (by decide)

/-!
## Claim C5
-/

/-- Claim C5, counterexample to the claim as stated: the validation
throw for an empty doctype sits *inside* the `try` block, so it reaches
the caller wrapped by `handleApiError` as a structured `FrappeApiError`
— it is produced via the error translator, not raised past it raw
(though still before any network access). -/
theorem claim_C5_counterexample :
    (@getDocument Doc "" "TODO-1" (.ok none)).networkAccessed = false ∧
    (@getDocument Doc "" "TODO-1" (.ok none)).result =
      .error (.api "Error during get_document(, TODO-1): DocType is required" none none) ∧
    (@getDocument Doc "" "TODO-1" (.ok none)).result ≠
      .error (.plain "DocType is required") := by
  decide

/-- Claim C5 as amended: a missing or empty required argument makes
`get` / `create` / `update` / `delete` fail synchronously, before any
network access — but the validation error is routed through
`handleApiError` like every other failure, so the caller receives a
structured `FrappeApiError`; and every error any of the four operations
rejects with is translator-produced (raw transport exceptions never
escape). -/
theorem claim_C5_validation_spec :
    (∀ (n : String) (r : Except JsError (Option JObj)),
        getDocument "" n r =
          ⟨.error (handleApiError (.plain "DocType is required")
            ("get_document(" ++ "" ++ ", " ++ n ++ ")")), false⟩) ∧
    (∀ (d : String) (r : Except JsError (Option JObj)), d ≠ "" →
        getDocument d "" r =
          ⟨.error (handleApiError (.plain "Document name is required")
            ("get_document(" ++ d ++ ", " ++ "" ++ ")")), false⟩) ∧
    (∀ (v : CreateValues) (cR : Except JsError (Option CreationResponse))
        (gR : Except JsError (Option Doc)) (lR : Except JsError (Option (List Doc))),
        createDocument "" v cR gR lR =
          ⟨.error (handleApiError (.plain "DocType is required")
            ("create_document(" ++ "" ++ ")")), false⟩) ∧
    (∀ (d : String) (v : CreateValues) (cR : Except JsError (Option CreationResponse))
        (gR : Except JsError (Option Doc)) (lR : Except JsError (Option (List Doc))),
        d ≠ "" → v.isEmpty = true →
        createDocument d v cR gR lR =
          ⟨.error (handleApiError (.plain "Document values are required")
            ("create_document(" ++ d ++ ")")), false⟩) ∧
    (∀ (n : String) (v : CreateValues) (r : Except JsError (Option JObj)),
        updateDocument "" n v r =
          ⟨.error (handleApiError (.plain "DocType is required")
            ("update_document(" ++ "" ++ ", " ++ n ++ ")")), false⟩) ∧
    (∀ (d : String) (v : CreateValues) (r : Except JsError (Option JObj)), d ≠ "" →
        updateDocument d "" v r =
          ⟨.error (handleApiError (.plain "Document name is required")
            ("update_document(" ++ d ++ ", " ++ "" ++ ")")), false⟩) ∧
    (∀ (d n : String) (v : CreateValues) (r : Except JsError (Option JObj)),
        d ≠ "" → n ≠ "" → v.isEmpty = true →
        updateDocument d n v r =
          ⟨.error (handleApiError (.plain "Update values are required")
            ("update_document(" ++ d ++ ", " ++ n ++ ")")), false⟩) ∧
    (∀ (n : String) (r : Except JsError (Option JObj)),
        deleteDocument "" n r =
          ⟨.error (handleApiError (.plain "DocType is required")
            ("delete_document(" ++ "" ++ ", " ++ n ++ ")")), false⟩) ∧
    (∀ (d : String) (r : Except JsError (Option JObj)), d ≠ "" →
        deleteDocument d "" r =
          ⟨.error (handleApiError (.plain "Document name is required")
            ("delete_document(" ++ d ++ ", " ++ "" ++ ")")), false⟩) ∧
    (∀ (d n : String) (r : Except JsError (Option JObj)) (e : JsError),
        (getDocument d n r).result = .error e → e.isApi = true) ∧
    (∀ (d : String) (v : CreateValues) (cR : Except JsError (Option CreationResponse))
        (gR : Except JsError (Option Doc)) (lR : Except JsError (Option (List Doc)))
        (e : JsError),
        (createDocument d v cR gR lR).result = .error e → e.isApi = true) ∧
    (∀ (d n : String) (v : CreateValues) (r : Except JsError (Option JObj)) (e : JsError),
        (updateDocument d n v r).result = .error e → e.isApi = true) ∧
    (∀ (d n : String) (r : Except JsError (Option JObj)) (e : JsError),
        (deleteDocument d n r).result = .error e → e.isApi = true) := by
  refine ⟨?_, ?_, ?_, ?_, ?_, ?_, ?_, ?_, ?_, ?_, ?_, ?_, ?_⟩
  · intro n r
    simp [getDocument]
  · intro d r hd
    simp [getDocument, hd]
  · intro v cR gR lR
    simp [createDocument]
  · intro d v cR gR lR hd hv
    simp [createDocument, hd, hv]
  · intro n v r
    simp [updateDocument]
  · intro d v r hd
    simp [updateDocument, hd]
  · intro d n v r hd hn hv
    simp [updateDocument, hd, hn, hv]
  · intro n r
    simp [deleteDocument]
  · intro d r hd
    simp [deleteDocument, hd]
  · intro d n r e h
    unfold getDocument at h
    by_cases hd0 : d = ""
    · simp [hd0] at h
      rw [← h]
      exact handleApiError_isApi _ _
    · by_cases hn0 : n = ""
      · simp [hd0, hn0] at h
        rw [← h]
        exact handleApiError_isApi _ _
      · cases r with
        | error e' =>
            simp [hd0, hn0] at h
            rw [← h]
            exact handleApiError_isApi _ _
        | ok ro =>
            cases ro with
            | none =>
                simp [hd0, hn0] at h
                rw [← h]
                exact handleApiError_isApi _ _
            | some v => simp [hd0, hn0] at h
  · intro d v cR gR lR e h
    unfold createDocument at h
    by_cases hd0 : d = ""
    · simp [hd0] at h
      rw [← h]
      exact handleApiError_isApi _ _
    · by_cases hv0 : v.isEmpty
      · simp [hd0, hv0] at h
        rw [← h]
        exact handleApiError_isApi _ _
      · cases cR with
        | error e' =>
            simp [hd0, hv0] at h
            rw [← h]
            exact handleApiError_isApi _ _
        | ok ro =>
            cases ro with
            | none =>
                simp [hd0, hv0] at h
                rw [← h]
                exact handleApiError_isApi _ _
            | some resp =>
                obtain ⟨vr, hvr⟩ := verifyDocumentCreation_ok v resp gR lR
                by_cases hs : vr.success <;> simp [hd0, hv0, hvr, hs] at h
  · intro d n v r e h
    unfold updateDocument at h
    by_cases hd0 : d = ""
    · simp [hd0] at h
      rw [← h]
      exact handleApiError_isApi _ _
    · by_cases hn0 : n = ""
      · simp [hd0, hn0] at h
        rw [← h]
        exact handleApiError_isApi _ _
      · by_cases hv0 : v.isEmpty
        · simp [hd0, hn0, hv0] at h
          rw [← h]
          exact handleApiError_isApi _ _
        · cases r with
          | error e' =>
              simp [hd0, hn0, hv0] at h
              rw [← h]
              exact handleApiError_isApi _ _
          | ok ro =>
              cases ro with
              | none =>
                  simp [hd0, hn0, hv0] at h
                  rw [← h]
                  exact handleApiError_isApi _ _
              | some vres => simp [hd0, hn0, hv0] at h
  · intro d n r e h
    unfold deleteDocument at h
    by_cases hd0 : d = ""
    · simp [hd0] at h
      rw [← h]
      exact handleApiError_isApi _ _
    · by_cases hn0 : n = ""
      · simp [hd0, hn0] at h
        rw [← h]
        exact handleApiError_isApi _ _
      · cases r with
        | error e' =>
            simp [hd0, hn0] at h
            rw [← h]
            exact handleApiError_isApi _ _
        | ok ro => simp [hd0, hn0] at h

/-- Witness for C5: `create` with a non-empty doctype and an empty
values map fails before any network access, with the validation message
wrapped by the translator. -/
theorem claim_C5_witness :
    createDocument "ToDo" ⟨none, none, none, []⟩ (.ok none) (.ok none) (.ok none) =
      ⟨.error (handleApiError (.plain "Document values are required")
        ("create_document(" ++ "ToDo" ++ ")")), false⟩ := by
  exact claim_C5_validation_spec.2.2.2.1 "ToDo" ⟨none, none, none, []⟩
    (.ok none) (.ok none) (.ok none) (by decide) (by decide)

/-!
## Claim C6
-/

/-- Claim C6: `authenticateWithPassword` returns `true` without
contacting upstream whenever the session is marked authenticated and the
last successful authentication is younger than the 30-minute window; on
upstream rejection it marks the session unauthenticated and returns
`false` leaving the timestamp untouched (a failed attempt never extends
the freshness window); and with credentials missing it returns `false`
as a policy outcome, leaves the session unauthenticated, and makes no
login call — the credential check can never be preempted by the fast
path because a session can only be marked authenticated by a successful
login, which requires credentials: missing credentials imply an
unauthenticated session from the initial state onwards, as the last two
conjuncts show. -/
theorem claim_C6_auth_spec :
    (∀ (cfg : AuthConfig) (st : AuthState) (now : Int) (login : LoginOutcome),
        st.isAuthenticated = true → now - st.lastAuthAttempt < AUTH_TIMEOUT →
        authenticateWithPassword cfg st now login = ⟨true, st, false⟩) ∧
    (∀ (cfg : AuthConfig) (st : AuthState) (now : Int) (e : String),
        cfg.credsPresent = true →
        ¬(st.isAuthenticated = true ∧ now - st.lastAuthAttempt < AUTH_TIMEOUT) →
        authenticateWithPassword cfg st now (.err e) =
          ⟨false, { st with isAuthenticated := false }, true⟩) ∧
    (∀ (cfg : AuthConfig) (st : AuthState) (now : Int) (login : LoginOutcome),
        cfg.credsPresent = false → st.isAuthenticated = false →
        authenticateWithPassword cfg st now login =
          ⟨false, { st with isAuthenticated := false }, false⟩) ∧
    (AuthState.init.isAuthenticated = false) ∧
    (∀ (cfg : AuthConfig) (st : AuthState) (now : Int) (login : LoginOutcome),
        cfg.credsPresent = false → st.isAuthenticated = false →
        (authenticateWithPassword cfg st now login).state.isAuthenticated = false) := by
  refine ⟨?_, ?_, ?_, rfl, ?_⟩
  · intro cfg st now login h1 h2
    simp [authenticateWithPassword, h1, h2]
  · intro cfg st now e hcreds hc
    have hfast : (st.isAuthenticated &&
        decide (now - st.lastAuthAttempt < AUTH_TIMEOUT)) = false := by
      by_cases hA : st.isAuthenticated = true
      · have hB : ¬(now - st.lastAuthAttempt < AUTH_TIMEOUT) := fun hb => hc ⟨hA, hb⟩
        simp [hA, hB]
      · rw [Bool.not_eq_true] at hA
        simp [hA]
    simp [authenticateWithPassword, hfast, hcreds]
  · intro cfg st now login hcreds hA
    simp [authenticateWithPassword, hA, hcreds]
  · intro cfg st now login hcreds hA
    simp [authenticateWithPassword, hA, hcreds]

/-- Witness for C6: missing username, fresh process state — the call is
a policy `false` with no upstream login. -/
theorem claim_C6_witness :
    authenticateWithPassword ⟨none, some "pw"⟩ AuthState.init 0 .ok =
      ⟨false, ⟨false, 0⟩, false⟩ := by
  have h := claim_C6_auth_spec.2.2.1 ⟨none, some "pw"⟩ AuthState.init 0 .ok
    (by decide) rfl
  simpa [AuthState.init] using h

/-!
## Claim C7
-/

/-- Claim C7, counterexample to the claim as stated: the display-field
selection is a *single* `find` with the disjunction
`fieldname === "title" || bold === 1`, not a title-first priority.  With
a bold-flagged field declared before the `title` field (linked schema
obtained through the fallback path, whose raw records keep `bold` as the
numeric 1), the bold field wins and the label is composed from it, where
the claim's title-first rule would have produced
`"OPEN-1 - My title"`. -/
theorem claim_C7_counterexample :
    (getFieldOptions "Task" "status_link" none
        (.ok (some ⟨some [], some [[("fieldname", .str "status_link"),
          ("fieldtype", .str "Link"), ("options", .str "Status")]], none, .undefined⟩))
        (.ok none)
        (.error (.plain "x"))
        (.ok (some ⟨[], some [[("fieldname", .str "status"), ("bold", .num 1)],
          [("fieldname", .str "title")]], none⟩))
        (.ok (some [⟨"OPEN-1", [("status", "Open"), ("title", "My title")]⟩]))
        (.ok none)).result = .ok [⟨"OPEN-1", "OPEN-1 - Open"⟩] ∧
    (getFieldOptions "Task" "status_link" none
        (.ok (some ⟨some [], some [[("fieldname", .str "status_link"),
          ("fieldtype", .str "Link"), ("options", .str "Status")]], none, .undefined⟩))
        (.ok none)
        (.error (.plain "x"))
        (.ok (some ⟨[], some [[("fieldname", .str "status"), ("bold", .num 1)],
          [("fieldname", .str "title")]], none⟩))
        (.ok (some [⟨"OPEN-1", [("status", "Open"), ("title", "My title")]⟩]))
        (.ok none)).result ≠ .ok [⟨"OPEN-1", "OPEN-1 - My title"⟩] ∧
    findDisplayField [[("fieldname", .str "status"), ("bold", .num 1)],
      [("fieldname", .str "title")]] =
      some [("fieldname", .str "status"), ("bold", .num 1)] := by
  decide

/-- Claim C7 as amended: for every Link field, `getFieldOptions` issues
only `limit: 50` queries against the linked doctype; the display field
is the *first* field that is either literally named `title` or carries
the numeric bold flag (one pass, no title-first priority); each option's
label is `"<name> - <display>"` when a truthy display value exists and
plain `<name>` otherwise; and on a failed main query it falls back to a
name-only `limit: 50` query producing plain `<name>` labels. -/
theorem claim_C7_field_options_spec :
    (∀ (d f : String) (filters : Option JObj)
        (metaR : Except JsError (Option MetaBundle)) (docR : Except JsError (Option DocTypeDoc))
        (lm : Except JsError (Option MetaBundle)) (ld : Except JsError (Option DocTypeDoc))
        (lr flr : Except JsError (Option (List LinkItem))),
        ((getFieldOptions d f filters metaR docR lm ld lr flr).queries).all
          (fun q => q.limit == 50) = true) ∧
    (∀ (fields : List RField) (fl : RField), findDisplayField fields = some fl →
        ((jGet fl "fieldname").isStr "title" || (jGet fl "bold").isOne) = true) ∧
    (findDisplayField [[("fieldname", .str "title")], [("fieldname", .str "status"),
        ("bold", .num 1)]] = some [("fieldname", .str "title")]) ∧
    (∀ (tf : RField) (n v : String), v ≠ "" →
        linkOptionLabel (some tf) ⟨n, [((jGet tf "fieldname").toStr, v)]⟩ = n ++ " - " ++ v) ∧
    (∀ (tf : RField) (n : String),
        linkOptionLabel (some tf) ⟨n, [((jGet tf "fieldname").toStr, "")]⟩ = n) ∧
    (∀ (tf : RField) (n : String), linkOptionLabel (some tf) ⟨n, []⟩ = n) ∧
    (∀ (n : String) (attrs : List (String × String)), linkOptionLabel none ⟨n, attrs⟩ = n) ∧
    (∀ (filters : Option JObj) (items : List LinkItem)
        (flr : Except JsError (Option (List LinkItem))),
        getFieldOptions "Task" "status_link" filters
            (.ok (some ⟨some [], some [[("fieldname", .str "status_link"),
              ("fieldtype", .str "Link"), ("options", .str "Status")]], none, .undefined⟩))
            (.ok none)
            (.ok (some ⟨some [], some [[("fieldname", .str "title")]], none, .undefined⟩))
            (.ok none)
            (.ok (some items)) flr =
          ⟨.ok (items.map (fun it =>
              ⟨it.name, linkOptionLabel (some (mapMetaField [("fieldname", .str "title")])) it⟩)),
            [⟨"Status", 50, ["name", "title"], filters⟩]⟩) ∧
    (∀ (filters : Option JObj) (e : JsError) (items2 : List LinkItem),
        getFieldOptions "Task" "status_link" filters
            (.ok (some ⟨some [], some [[("fieldname", .str "status_link"),
              ("fieldtype", .str "Link"), ("options", .str "Status")]], none, .undefined⟩))
            (.ok none)
            (.ok (some ⟨some [], some [[("fieldname", .str "title")]], none, .undefined⟩))
            (.ok none)
            (.error e) (.ok (some items2)) =
          ⟨.ok (items2.map (fun it => ⟨it.name, it.name⟩)),
            [⟨"Status", 50, ["name", "title"], filters⟩,
             ⟨"Status", 50, ["name"], filters⟩]⟩) := by
  have h1 : getDocTypeSchema "Task"
      (.ok (some ⟨some [], some [[("fieldname", .str "status_link"),
        ("fieldtype", .str "Link"), ("options", .str "Status")]], none, .undefined⟩)) (.ok none) =
      .ok (metaSchema "Task" ⟨some [], some [[("fieldname", .str "status_link"),
        ("fieldtype", .str "Link"), ("options", .str "Status")]], none, .undefined⟩) := by decide
  have h2 : getDocTypeSchema "Status"
      (.ok (some ⟨some [], some [[("fieldname", .str "title")]], none, .undefined⟩)) (.ok none) =
      .ok (metaSchema "Status" ⟨some [], some [[("fieldname", .str "title")]], none,
        .undefined⟩) := by decide
  have hT : ¬(("Task" : String) = "") := by decide
  have hF : ¬(("status_link" : String) = "") := by decide
  have hfind : List.find? (fun fl => (jGet fl "fieldname").isStr "status_link")
      (metaSchema "Task" ⟨some [], some [[("fieldname", .str "status_link"),
        ("fieldtype", .str "Link"), ("options", .str "Status")]], none, .undefined⟩).fields =
      some (mapMetaField [("fieldname", .str "status_link"),
        ("fieldtype", .str "Link"), ("options", .str "Status")]) := by decide
  have hlink : (jGet (mapMetaField [("fieldname", .str "status_link"),
      ("fieldtype", .str "Link"), ("options", .str "Status")]) "fieldtype").isStr "Link" =
      true := by decide
  have htruthy : (jGet (mapMetaField [("fieldname", .str "status_link"),
      ("fieldtype", .str "Link"), ("options", .str "Status")]) "options").truthy = true := by
    decide
  have htostr : (jGet (mapMetaField [("fieldname", .str "status_link"),
      ("fieldtype", .str "Link"), ("options", .str "Status")]) "options").toStr =
      "Status" := by decide
  have hfd : findDisplayField (metaSchema "Status" ⟨some [],
      some [[("fieldname", .str "title")]], none, .undefined⟩).fields =
      some (mapMetaField [("fieldname", .str "title")]) := by decide
  have hfdname : (jGet (mapMetaField [("fieldname", .str "title")]) "fieldname").toStr =
      "title" := by decide
  refine ⟨?_, ?_, by decide, ?_, ?_, ?_, ?_, ?_, ?_⟩
  · intro d f filters metaR docR lm ld lr flr
    unfold getFieldOptions
    dsimp only
    repeat' split
    all_goals simp [List.all]
  · intro fields fl h
    unfold findDisplayField at h
    have hp := List.find?_some h
    exact hp
  · intro tf n v hv
    simp [linkOptionLabel, hv]
  · intro tf n
    simp [linkOptionLabel]
  · intro tf n
    rfl
  · intro n attrs
    rfl
  · intro filters items flr
    unfold getFieldOptions
    rw [h1]
    simp only [hT, hF, hfind, hlink, htruthy, htostr, hfd, hfdname, if_neg, if_true, h2]
    simp [htruthy]
  · intro filters e items2
    unfold getFieldOptions
    rw [h1]
    simp only [hT, hF, hfind, hlink, htruthy, htostr, hfd, hfdname, if_neg, if_true, h2]
    simp [htruthy]

/-- Witness for C7: one linked document with a truthy `title` display
value gets the composed `"<name> - <display>"` label through the main
path, with the single `limit: 50` query. -/
theorem claim_C7_witness :
    getFieldOptions "Task" "status_link" none
        (.ok (some ⟨some [], some [[("fieldname", .str "status_link"),
          ("fieldtype", .str "Link"), ("options", .str "Status")]], none, .undefined⟩))
        (.ok none)
        (.ok (some ⟨some [], some [[("fieldname", .str "title")]], none, .undefined⟩))
        (.ok none)
        (.ok (some [⟨"ST-1", [("title", "Hello")]⟩])) (.ok none) =
      ⟨.ok [⟨"ST-1", "ST-1 - Hello"⟩], [⟨"Status", 50, ["name", "title"], none⟩]⟩ := by
  have h := claim_C7_field_options_spec.2.2.2.2.2.2.2.1 none
    [⟨"ST-1", [("title", "Hello")]⟩] (.ok none)
  rw [h]
  decide

end FrappeMcp
